import Mathlib

/-!
Shallow embedding of the basilisk trading backend's core numeric and
resilience logic, with theorems checking the natural-language
specification's claims against the code.

Source files embedded here:
* `src/backend/app/core/circuit_breakers.py` (breaker configurations)
* `src/backend/app/core/http_client.py` (`TokenBucket`, `APIRateLimiters`,
  `resilient_request`)
* `src/backend/app/models/volatility.py` (`VolatilityRegime` estimators and
  the binary-option pricer)
* `src/backend/app/models/predictor.py` (`ProbabilityPredictor.calculate_expected_value`)
* `src/backend/app/services/market_service.py` (signal side selection)
* `src/backend/app/services/trade_executor.py` (`TradeExecutor.close_position`)

Numbers are embedded as exact rationals (`ℚ`) where the Python code only
performs field arithmetic, and as reals (`ℝ`) where the code applies
`sqrt`/`log`/the normal CDF.  Fallible paths of the Python code (a
`ZeroDivisionError`) are embedded as `Option`.
-/

namespace Basilisk

/-- One OHLC candle, holding the fields the volatility estimators read from
the Python candle dicts (`open`, `high`, `low`, `close`). -/
structure Candle where
  open_ : ℚ
  high : ℚ
  low : ℚ
  close : ℚ
deriving DecidableEq, Repr

/-! ### Circuit breaker configurations (`circuit_breakers.py`) -/

/-- The statically configured parameters of one `pybreaker.CircuitBreaker`:
`fail_max` (consecutive failures before tripping) and `reset_timeout` in
seconds (time spent OPEN before a HALF-OPEN retry). -/
structure BreakerConfig where
  fail_max : ℕ
  reset_timeout : ℕ
deriving DecidableEq, Repr

/-- `coinbase_breaker = CircuitBreaker(fail_max=5, reset_timeout=60s)`. -/
def coinbase_breaker : BreakerConfig := ⟨5, 60⟩

/-- `binance_breaker = CircuitBreaker(fail_max=5, reset_timeout=60s)`. -/
def binance_breaker : BreakerConfig := ⟨5, 60⟩

/-- `kraken_breaker = CircuitBreaker(fail_max=5, reset_timeout=60s)`. -/
def kraken_breaker : BreakerConfig := ⟨5, 60⟩

/-- `kalshi_breaker = CircuitBreaker(fail_max=3, reset_timeout=30s)`. -/
def kalshi_breaker : BreakerConfig := ⟨3, 30⟩

/-! ### Expected value (`predictor.py`, `calculate_expected_value`) -/

/-- Contract side, the `position` argument (`"YES"` / `"NO"`). -/
inductive Side where
  | YES
  | NO
deriving DecidableEq, Repr

/-- `ProbabilityPredictor.calculate_expected_value(true_prob, yes_bid,
yes_ask, position)`.  `fee_rate` embeds `self.fee_rate`
(`settings.kalshi_fee_rate`). -/
def calculate_expected_value (fee_rate true_prob yes_bid yes_ask : ℚ)
    (position : Side) : ℚ :=
  match position with
  | .YES =>
    let entry_price := yes_ask
    let exit_price : ℚ := 1
    let gross_profit := exit_price - entry_price
    let fee := if gross_profit > 0 then fee_rate * gross_profit else 0
    let net_profit := gross_profit - fee
    true_prob * net_profit - (1 - true_prob) * entry_price
  | .NO =>
    let no_ask := 1 - yes_bid
    let entry_price := no_ask
    let exit_price : ℚ := 1
    let gross_profit := exit_price - entry_price
    let fee := if gross_profit > 0 then fee_rate * gross_profit else 0
    let net_profit := gross_profit - fee
    (1 - true_prob) * net_profit - true_prob * entry_price

/-! ### Signal side selection (`market_service.py`, `_process_contract`) -/

/-- The recommended action string set by `_process_contract`. -/
inductive SignalType where
  | buyYes
  | buyNo
  | hold
deriving DecidableEq, Repr

/-- The side-selection branch of `MarketService._process_contract`:
`if ev_yes > 0.02 and ev_yes > ev_no: "BUY YES"
elif ev_no > 0.02 and ev_no > ev_yes: "BUY NO"
else: "HOLD"`. -/
def signal_type (ev_yes ev_no : ℚ) : SignalType :=
  if ev_yes > 0.02 ∧ ev_yes > ev_no then .buyYes
  else if ev_no > 0.02 ∧ ev_no > ev_yes then .buyNo
  else .hold

/-! ### Adaptive backoff multiplier (`http_client.py`, `APIRateLimiters`) -/

/-- `APIRateLimiters.apply_backoff(api_name)` with the default
`multiplier=2.0` used at every call site:
`_backoff_multiplier[api] = min(current * 2.0, 8.0)`. -/
def apply_backoff (current : ℚ) : ℚ := min (current * 2) 8

/-- `APIRateLimiters.reset_backoff(api_name)`:
`if m > 1.0: m = max(1.0, m * 0.8)`. -/
def reset_backoff (current : ℚ) : ℚ :=
  if current > 1 then max 1 (current * 0.8) else current

/-- One event acting on an API's backoff multiplier. -/
inductive BackoffOp where
  | apply
  | reset
deriving DecidableEq, Repr

/-- Run a sequence of backoff events from a starting multiplier. -/
def run_backoff_from (start : ℚ) (ops : List BackoffOp) : ℚ :=
  ops.foldl (fun m op =>
    match op with
    | .apply => apply_backoff m
    | .reset => reset_backoff m) start

/-- Run a sequence of backoff events from the initial multiplier `1.0`
(`_backoff_multiplier` starts every API at `1.0`). -/
def run_backoff (ops : List BackoffOp) : ℚ := run_backoff_from 1 ops

/-! ### Token bucket (`http_client.py`, `TokenBucket`) -/

/-- The mutable state of one `TokenBucket` together with its configuration.
`__post_init__` sets `tokens = capacity` and `last_refill = now`. -/
structure TokenBucket where
  capacity : ℚ
  refill_rate : ℚ
  tokens : ℚ
  last_refill : ℚ
deriving DecidableEq, Repr

/-- `TokenBucket.__post_init__`: fresh bucket at monotonic time `now`. -/
def TokenBucket.init (capacity refill_rate now : ℚ) : TokenBucket :=
  ⟨capacity, refill_rate, capacity, now⟩

/-- `TokenBucket.acquire(tokens)` called at monotonic time `now`: refills
lazily (`tokens = min(capacity, tokens + elapsed * refill_rate)`), then
either deducts the cost and returns wait time `0`, or leaves the refilled
level and returns the wait time needed for the shortfall.  Returns the
updated bucket and the wait time. -/
def TokenBucket.acquire (b : TokenBucket) (now cost : ℚ) : TokenBucket × ℚ :=
  let elapsed := now - b.last_refill
  let refilled := min b.capacity (b.tokens + elapsed * b.refill_rate)
  if refilled ≥ cost then
    ({ b with tokens := refilled - cost, last_refill := now }, 0)
  else
    ({ b with tokens := refilled, last_refill := now },
      (cost - refilled) / b.refill_rate)

/-- Run a finite sequence of `acquire` calls, each a `(now, cost)` pair. -/
def runAcquires (b : TokenBucket) : List (ℚ × ℚ) → TokenBucket
  | [] => b
  | (now, cost) :: rest => runAcquires (b.acquire now cost).1 rest

/-- A call sequence is valid from time `t0` when its times are
non-decreasing starting at `t0` and all costs are non-negative. -/
def validCalls : ℚ → List (ℚ × ℚ) → Bool
  | _, [] => true
  | t0, (now, cost) :: rest =>
    decide (t0 ≤ now) && decide (0 ≤ cost) && validCalls now rest

/-! ### Retry loop of `resilient_request` (`http_client.py`) -/

/-- Outcome of one `_call_with_breaker()` attempt: a normal response, a
`ServiceUnavailableError` (translated from `CircuitBreakerError`, i.e. the
breaker is open), or a transient network error
(`httpx.TimeoutException` / `NetworkError` / `ConnectError`). -/
inductive Outcome where
  | ok
  | breakerOpen
  | transient
deriving DecidableEq, Repr

/-- How `resilient_request` terminates: returning the response, raising
`ServiceUnavailableError`, or surfacing the transient error after the
attempt budget is exhausted. -/
inductive RRResult where
  | success
  | svcUnavailable
  | transientError
deriving DecidableEq, Repr

/-- The `for attempt in range(max_attempts)` retry loop of
`resilient_request`, with `remaining` loop iterations left and `idx` the
index of the next attempt in the outcome stream.  `sleeps` counts the
`asyncio.sleep` backoff pauses performed so far.  When the loop falls
through (only possible with a zero budget) the code makes one final
`_call_with_breaker()` call.  Returns the result, the total number of
attempts made, and the total number of sleeps performed. -/
def rrLoop (out : ℕ → Outcome) : ℕ → ℕ → ℕ → RRResult × ℕ × ℕ
  | 0, idx, sleeps =>
    -- after the loop: `return await _call_with_breaker()`
    (match out idx with
     | .ok => (.success, idx + 1, sleeps)
     | .breakerOpen => (.svcUnavailable, idx + 1, sleeps)
     | .transient => (.transientError, idx + 1, sleeps))
  | remaining + 1, idx, sleeps =>
    match out idx with
    | .ok => (.success, idx + 1, sleeps)
    | .breakerOpen =>
      -- `except ServiceUnavailableError: raise` — fail fast, no sleep
      (.svcUnavailable, idx + 1, sleeps)
    | .transient =>
      -- `if attempt < max_attempts - 1: sleep(...)` else `raise`
      if remaining = 0 then (.transientError, idx + 1, sleeps)
      else rrLoop out remaining (idx + 1) (sleeps + 1)

/-- `resilient_request` with attempt budget `max_attempts` against the
attempt-outcome stream `out` (the i-th attempt observes `out i`). -/
def resilient_request (out : ℕ → Outcome) (max_attempts : ℕ) :
    RRResult × ℕ × ℕ :=
  rrLoop out max_attempts 0 0

/-! ### `TradeExecutor.close_position` (`trade_executor.py`) -/

/-- The `Trade.status` column values. -/
inductive TradeStatus where
  | PENDING
  | PARTIAL
  | OPEN
  | CLOSED
  | CANCELLED
deriving DecidableEq, Repr

/-- The fields of a `Trade` row read or written by `close_position`.
`avg` prices are in dollars; `filled_contracts` is the fill count recorded
when the position was opened. -/
structure Trade where
  status : TradeStatus
  entry_price : ℚ
  filled_contracts : ℤ
  exit_price : Option ℚ
  fees : Option ℚ
  pnl : Option ℚ
deriving DecidableEq, Repr

/-- The fields of a Kalshi `OrderResult` used by `close_position`:
`success`, `filled_count`, and `avg_price` in cents (`None` when the API
returned no average price). -/
structure OrderResult where
  success : Bool
  filled_count : ℤ
  avg_price : Option ℚ
deriving DecidableEq, Repr

/-- The fields of the `TradeResponse` dataclass relevant to
`close_position`: the structured `success` flag and the `price` (exit
price) echoed on success. -/
structure TradeResponse where
  success : Bool
  price : Option ℚ
deriving DecidableEq, Repr

/-- `TradeExecutor.close_position(trade_id)`.  `trade?` is the row the
`SELECT` returned (`none` when the trade does not exist), `close_result`
the outcome of the opposing market sell order, and `fee_rate` embeds
`settings.kalshi_fee_rate`.  Returns the structured response and the trade
row as left in the database. -/
def close_position (fee_rate : ℚ) (trade? : Option Trade)
    (close_result : OrderResult) : TradeResponse × Option Trade :=
  match trade? with
  | none => (⟨false, none⟩, none)
  | some trade =>
    if trade.status ≠ .OPEN then (⟨false, none⟩, some trade)
    else if close_result.success ∧ close_result.filled_count > 0 then
      -- Python: `exit_price = close_result.avg_price / 100.0 if
      -- close_result.avg_price else 0` (`None` and `0` are both falsy)
      let exit_price :=
        match close_result.avg_price with
        | some a => if a ≠ 0 then a / 100 else 0
        | none => 0
      let gross_pnl := (exit_price - trade.entry_price) * trade.filled_contracts
      let fees := if gross_pnl > 0 then gross_pnl * fee_rate else 0
      let pnl := if gross_pnl > 0 then gross_pnl - gross_pnl * fee_rate else gross_pnl
      (⟨true, some exit_price⟩,
        some { trade with
                status := .CLOSED
                exit_price := some exit_price
                fees := some fees
                pnl := some pnl })
    else (⟨false, none⟩, some trade)

/-! ### Volatility estimators (`volatility.py`) -/

/-- Python's negative-index slice `candles[-(n):]`: the last `n` elements
(the whole list when it is shorter than `n`). -/
def lastN {α : Type} (l : List α) (n : ℕ) : List α := l.drop (l.length - n)

/-- Arithmetic mean of a list of rationals (`np.mean`); division by the
length, `0/0 = 0` junk on the empty list. -/
def qmean (xs : List ℚ) : ℚ := xs.sum / xs.length

/-- `np.std(xs, ddof=1) ** 2`, i.e. the ddof-1 sample variance
`Σ (x - mean)² / (n - 1)` over exact rationals.  NumPy returns NaN for
`n ≤ 1`; this embedding is faithful only for `n ≥ 2` (for `n ≤ 1` the
rational junk value `0` is produced) and every theorem below that uses it
stays in the `n ≥ 2` regime. -/
def sample_variance (xs : List ℚ) : ℚ :=
  (xs.map (fun r => (r - qmean xs) ^ 2)).sum / ((xs.length : ℚ) - 1)

/-- Arithmetic mean over reals (`np.mean` applied to log returns). -/
noncomputable def rmean (xs : List ℝ) : ℝ := xs.sum / xs.length

/-- ddof-1 sample variance over reals; same NaN caveat as
`sample_variance`. -/
noncomputable def rsample_variance (xs : List ℝ) : ℝ :=
  (xs.map (fun r => (r - rmean xs) ^ 2)).sum / ((xs.length : ℝ) - 1)

/-- `VolatilityRegime.calculate_realized_volatility(candles, window)`:
with fewer than `window + 1` candles returns the default `0.50`; otherwise
takes the closes of the last `window + 1` candles, forms the simple
returns `closes[i] / closes[i-1] - 1`, and returns
`np.std(returns, ddof=1) * sqrt(24 * 365)`. -/
noncomputable def calculate_realized_volatility (candles : List Candle)
    (window : ℕ) : ℝ :=
  if candles.length < window + 1 then 0.50
  else
    let closes := (lastN candles (window + 1)).map Candle.close
    let returns := (closes.zip closes.tail).map (fun p => p.2 / p.1 - 1)
    Real.sqrt ((sample_variance returns : ℚ) : ℝ) * Real.sqrt (24 * 365)

/-- Modelled from the spec's words for the close-to-close estimator
(claim C1): the standard deviation of the *log* returns
`ln(close_t / close_{t-1})` over the last `window + 1` candles, annualized
by `sqrt(24 * 365)`, with the same `0.50` short-input default. -/
noncomputable def spec_close_to_close_log_vol (candles : List Candle)
    (window : ℕ) : ℝ :=
  if candles.length < window + 1 then 0.50
  else
    let closes := (lastN candles (window + 1)).map fun c => (c.close : ℝ)
    let log_returns := (closes.zip closes.tail).map fun p => Real.log (p.2 / p.1)
    Real.sqrt (rsample_variance log_returns) * Real.sqrt (24 * 365)

/-- The amended spec formula for the close-to-close estimator: as
`spec_close_to_close_log_vol` but with the *simple* returns
`close_t / close_{t-1} - 1` the code actually uses, written directly over
the reals. -/
noncomputable def spec_close_to_close_simple_vol (candles : List Candle)
    (window : ℕ) : ℝ :=
  if candles.length < window + 1 then 0.50
  else
    let closes := (lastN candles (window + 1)).map fun c => (c.close : ℝ)
    let returns := (closes.zip closes.tail).map fun p => p.2 / p.1 - 1
    Real.sqrt (rsample_variance returns) * Real.sqrt (24 * 365)

/-- The `option_type` argument (`"CALL"`, else treated as PUT). -/
inductive OptionType where
  | CALL
  | PUT
deriving DecidableEq, Repr

/-- `scipy.stats.norm.cdf`: the standard normal cumulative distribution
function. -/
noncomputable def normCdf (x : ℝ) : ℝ :=
  (ProbabilityTheory.gaussianReal 0 1 (Set.Iic x)).toReal

/-- The deterministic already-decided payoff used by both early-exit
branches of the pricer: for a CALL, `1.0 if current > strike else 0.0`;
for a PUT, `1.0 if current < strike else 0.0`. -/
noncomputable def binary_outcome (current_price strike_price : ℝ)
    (option_type : OptionType) : ℝ :=
  match option_type with
  | .CALL => if current_price > strike_price then 1 else 0
  | .PUT => if current_price < strike_price then 1 else 0

/-- `VolatilityRegime.calculate_binary_option_probability(current_price,
strike_price, time_to_expiry_hours, volatility, option_type)`, following
the source's branch order: expired → deterministic outcome; `T` computed;
`volatility ≤ 0 or T ≤ 0` → deterministic outcome; non-positive
`current_price` or `strike_price` → `0.5`; otherwise `N(d2)` (CALL) or
`N(-d2)` (PUT) with `r = 0`. -/
noncomputable def calculate_binary_option_probability
    (current_price strike_price time_to_expiry_hours volatility : ℝ)
    (option_type : OptionType) : ℝ :=
  if time_to_expiry_hours ≤ 0 then
    binary_outcome current_price strike_price option_type
  else
    let T := time_to_expiry_hours / (24 * 365)
    let r : ℝ := 0
    if volatility ≤ 0 ∨ T ≤ 0 then
      binary_outcome current_price strike_price option_type
    else
      let sigma_sqrt_T := volatility * Real.sqrt T
      if current_price ≤ 0 ∨ strike_price ≤ 0 then 0.5
      else
        let ln_S_K := Real.log (current_price / strike_price)
        let d1 := (ln_S_K + (r + 0.5 * volatility ^ 2) * T) / sigma_sqrt_T
        let d2 := d1 - sigma_sqrt_T
        match option_type with
        | .CALL => normCdf d2
        | .PUT => normCdf (-d2)

/-! ### Yang-Zhang estimator (`calculate_yang_zhang_volatility`) -/

/-- The `continue` filter in the Yang-Zhang accumulation loop: a
consecutive-candle pair is skipped when
`prev_close <= 0 or curr_open <= 0 or curr_low <= 0`. -/
def yz_valid_pair (p : Candle × Candle) : Bool :=
  ¬(p.1.close ≤ 0 ∨ p.2.open_ ≤ 0 ∨ p.2.low ≤ 0)

/-- The consecutive pairs `(recent[i-1], recent[i])` of the last
`window + 1` candles that survive the validity filter; each contributes
one element to each of the three return lists. -/
def yz_pairs (candles : List Candle) (window : ℕ) : List (Candle × Candle) :=
  let recent := lastN candles (window + 1)
  (recent.zip recent.tail).filter yz_valid_pair

/-- Overnight return of a pair: `log(curr_open / prev_close)`. -/
noncomputable def yz_overnight (p : Candle × Candle) : ℝ :=
  Real.log ((p.2.open_ : ℝ) / (p.1.close : ℝ))

/-- Open-to-close return of a pair: `log(curr_close / curr_open)`. -/
noncomputable def yz_open_close (p : Candle × Candle) : ℝ :=
  Real.log ((p.2.close : ℝ) / (p.2.open_ : ℝ))

/-- Rogers-Satchell term of a pair:
`ln(H/C)·ln(H/O) + ln(L/C)·ln(L/O)`. -/
noncomputable def yz_rogers_satchell (p : Candle × Candle) : ℝ :=
  Real.log ((p.2.high : ℝ) / (p.2.close : ℝ)) *
      Real.log ((p.2.high : ℝ) / (p.2.open_ : ℝ)) +
    Real.log ((p.2.low : ℝ) / (p.2.close : ℝ)) *
      Real.log ((p.2.low : ℝ) / (p.2.open_ : ℝ))

/-- `VolatilityRegime.calculate_yang_zhang_volatility(candles, window)`.
With fewer than `window + 1` candles, or with no valid pair, returns the
default `0.50`.  When exactly one valid pair remains the Python code
divides by `n - 1 = 0` and raises `ZeroDivisionError`; that fallible path
is embedded as `none`.  Otherwise combines the overnight variance, the
open-to-close variance (weight `k`) and the Rogers-Satchell mean (weight
`1 - k`), clamps a negative combined variance to its absolute value, and
annualizes by `sqrt(24 * 365)`. -/
noncomputable def calculate_yang_zhang_volatility (candles : List Candle)
    (window : ℕ) : Option ℝ :=
  if candles.length < window + 1 then some 0.50
  else
    let pairs := yz_pairs candles window
    if pairs = [] then some 0.50
    else
      let n := pairs.length
      if n = 1 then none
      else
        let overnight_returns := pairs.map yz_overnight
        let open_close_returns := pairs.map yz_open_close
        let rogers_satchell := pairs.map yz_rogers_satchell
        let overnight_mean := rmean overnight_returns
        let sigma_overnight_sq :=
          (overnight_returns.map (fun r => (r - overnight_mean) ^ 2)).sum /
            ((n : ℝ) - 1)
        let oc_mean := rmean open_close_returns
        let sigma_oc_sq :=
          (open_close_returns.map (fun r => (r - oc_mean) ^ 2)).sum /
            ((n : ℝ) - 1)
        let sigma_rs_sq := rmean rogers_satchell
        let k := 0.34 / (1.34 + ((n : ℝ) + 1) / ((n : ℝ) - 1))
        let sigma_yz_sq :=
          sigma_overnight_sq + k * sigma_oc_sq + (1 - k) * sigma_rs_sq
        let clamped := if sigma_yz_sq < 0 then |sigma_yz_sq| else sigma_yz_sq
        some (Real.sqrt clamped * Real.sqrt (24 * 365))

/-! ## Theorems -/

/-- C2 counterexample: the claim as stated is false — the kalshi breaker
does trip after strictly fewer consecutive failures (3 < 5), but its reset
timeout (30 s) is *shorter* than the market-data breakers' (60 s), not
strictly longer. -/
theorem C2_counterexample :
    ¬(kalshi_breaker.fail_max < coinbase_breaker.fail_max ∧
      kalshi_breaker.fail_max < binance_breaker.fail_max ∧
      kalshi_breaker.fail_max < kraken_breaker.fail_max ∧
      kalshi_breaker.reset_timeout > coinbase_breaker.reset_timeout ∧
      kalshi_breaker.reset_timeout > binance_breaker.reset_timeout ∧
      kalshi_breaker.reset_timeout > kraken_breaker.reset_timeout) := by
  decide

/-- C2 (amended): the order-execution breaker (kalshi) trips after
strictly fewer consecutive failures than every read-only market-data
breaker (coinbase, binance, kraken), and its reset timeout before retrying
is strictly *shorter* than theirs. -/
theorem C2_kalshi_breaker_tighter :
    kalshi_breaker.fail_max < coinbase_breaker.fail_max ∧
    kalshi_breaker.fail_max < binance_breaker.fail_max ∧
    kalshi_breaker.fail_max < kraken_breaker.fail_max ∧
    kalshi_breaker.reset_timeout < coinbase_breaker.reset_timeout ∧
    kalshi_breaker.reset_timeout < binance_breaker.reset_timeout ∧
    kalshi_breaker.reset_timeout < kraken_breaker.reset_timeout := by
  decide

/-- C3: for every true probability `p ∈ [0,1]`, `yes_bid`, `yes_ask ∈
[0,1]` and fee rate `f`, `calculate_expected_value` returns
`EV_yes = p·(1 − yes_ask − f·max(1−yes_ask, 0)) − (1−p)·yes_ask` for the
YES side and the symmetric value with entry price `1 − yes_bid` for the NO
side, and the fee term vanishes whenever the gross profit `1 − entry` is
not positive. -/
theorem C3_expected_value (p yes_bid yes_ask f : ℚ)
    (hp : 0 ≤ p ∧ p ≤ 1) (hb : 0 ≤ yes_bid ∧ yes_bid ≤ 1)
    (ha : 0 ≤ yes_ask ∧ yes_ask ≤ 1) :
    calculate_expected_value f p yes_bid yes_ask .YES
        = p * (1 - yes_ask - f * max (1 - yes_ask) 0) - (1 - p) * yes_ask ∧
    calculate_expected_value f p yes_bid yes_ask .NO
        = (1 - p) * (1 - (1 - yes_bid) - f * max (1 - (1 - yes_bid)) 0)
          - p * (1 - yes_bid) ∧
    (1 - yes_ask ≤ 0 →
      calculate_expected_value f p yes_bid yes_ask .YES
        = p * (1 - yes_ask) - (1 - p) * yes_ask) ∧
    (1 - (1 - yes_bid) ≤ 0 →
      calculate_expected_value f p yes_bid yes_ask .NO
        = (1 - p) * (1 - (1 - yes_bid)) - p * (1 - yes_bid)) := by
  refine ⟨?_, ?_, ?_, ?_⟩
  · show (let entry_price := yes_ask; let exit_price : ℚ := 1;
      let gross_profit := exit_price - entry_price;
      let fee := if gross_profit > 0 then f * gross_profit else 0;
      let net_profit := gross_profit - fee;
      p * net_profit - (1 - p) * entry_price) = _
    by_cases h : 1 - yes_ask > 0
    · simp only [h, if_true, max_eq_left h.le]
    · simp only [h, if_false, max_eq_right (not_lt.mp h)]; ring
  · show (let no_ask := 1 - yes_bid; let entry_price := no_ask;
      let exit_price : ℚ := 1;
      let gross_profit := exit_price - entry_price;
      let fee := if gross_profit > 0 then f * gross_profit else 0;
      let net_profit := gross_profit - fee;
      (1 - p) * net_profit - p * entry_price) = _
    by_cases h : 1 - (1 - yes_bid) > 0
    · simp only [h, if_true, max_eq_left h.le]
    · simp only [h, if_false, max_eq_right (not_lt.mp h)]; ring
  · intro h
    show (let entry_price := yes_ask; let exit_price : ℚ := 1;
      let gross_profit := exit_price - entry_price;
      let fee := if gross_profit > 0 then f * gross_profit else 0;
      let net_profit := gross_profit - fee;
      p * net_profit - (1 - p) * entry_price) = _
    simp only [not_lt.mpr h, if_false]
    ring
  · intro h
    show (let no_ask := 1 - yes_bid; let entry_price := no_ask;
      let exit_price : ℚ := 1;
      let gross_profit := exit_price - entry_price;
      let fee := if gross_profit > 0 then f * gross_profit else 0;
      let net_profit := gross_profit - fee;
      (1 - p) * net_profit - p * entry_price) = _
    simp only [not_lt.mpr h, if_false]
    ring

/-- C3 witness: the theorem applied at `p = 1/2`, `yes_bid = 2/5`,
`yes_ask = 3/5`, `f = 7/100`. -/
theorem C3_expected_value_witness :
    ((0:ℚ) ≤ 1/2 ∧ (1:ℚ)/2 ≤ 1) ∧ ((0:ℚ) ≤ 2/5 ∧ (2:ℚ)/5 ≤ 1) ∧
    ((0:ℚ) ≤ 3/5 ∧ (3:ℚ)/5 ≤ 1) ∧
    (calculate_expected_value (7/100) (1/2) (2/5) (3/5) .YES
        = 1/2 * (1 - 3/5 - 7/100 * max (1 - 3/5) 0) - (1 - 1/2) * (3/5) ∧
    calculate_expected_value (7/100) (1/2) (2/5) (3/5) .NO
        = (1 - 1/2) * (1 - (1 - 2/5) - 7/100 * max (1 - (1 - 2/5)) 0)
          - 1/2 * (1 - 2/5) ∧
    ((1:ℚ) - 3/5 ≤ 0 →
      calculate_expected_value (7/100) (1/2) (2/5) (3/5) .YES
        = 1/2 * (1 - 3/5) - (1 - 1/2) * (3/5)) ∧
    ((1:ℚ) - (1 - 2/5) ≤ 0 →
      calculate_expected_value (7/100) (1/2) (2/5) (3/5) .NO
        = (1 - 1/2) * (1 - (1 - 2/5)) - 1/2 * (1 - 2/5))) :=
  ⟨⟨by norm_num, by norm_num⟩, ⟨by norm_num, by norm_num⟩,
    ⟨by norm_num, by norm_num⟩,
    C3_expected_value (1/2) (2/5) (3/5) (7/100)
      ⟨by norm_num, by norm_num⟩ ⟨by norm_num, by norm_num⟩
      ⟨by norm_num, by norm_num⟩⟩

/-- C8: for every pair of expected values, the engine labels the contract
BUY YES exactly when `ev_yes > 0.02` and `ev_yes > ev_no`, BUY NO exactly
when `ev_no > 0.02` and `ev_no > ev_yes`, and HOLD in every other case
(ties and both sides at or below threshold included). -/
theorem C8_signal_side_selection (ev_yes ev_no : ℚ) :
    (signal_type ev_yes ev_no = .buyYes ↔ ev_yes > 0.02 ∧ ev_yes > ev_no) ∧
    (signal_type ev_yes ev_no = .buyNo ↔ ev_no > 0.02 ∧ ev_no > ev_yes) ∧
    (signal_type ev_yes ev_no = .hold ↔
      ¬(ev_yes > 0.02 ∧ ev_yes > ev_no) ∧ ¬(ev_no > 0.02 ∧ ev_no > ev_yes)) := by
  unfold signal_type
  split_ifs with h1 h2
  · refine ⟨by simp [h1], ?_, ?_⟩
    · simp only [reduceCtorEq, false_iff]
      rintro ⟨-, h⟩
      exact absurd h1.2 (lt_asymm h)
    · simp [h1]
  · refine ⟨by simp [h1], by simp [h2], ?_⟩
    simp [h1, h2]
  · refine ⟨by simp [h1], by simp [h2], by simp [h1, h2]⟩

/-- C10: starting from `1.0`, every interleaving of `apply_backoff`
(double, capped at `8.0`) and `reset_backoff` (times `0.8`, floored at
`1.0`) keeps the backoff multiplier within `[1.0, 8.0]`. -/
theorem C10_backoff_multiplier_bounds (ops : List BackoffOp) :
    1 ≤ run_backoff ops ∧ run_backoff ops ≤ 8 := by
  suffices h : ∀ (l : List BackoffOp) (m : ℚ), 1 ≤ m → m ≤ 8 →
      1 ≤ run_backoff_from m l ∧ run_backoff_from m l ≤ 8 by
    exact h ops 1 le_rfl (by norm_num)
  intro l
  induction l with
  | nil => exact fun m h1 h8 => ⟨h1, h8⟩
  | cons op rest ih =>
    intro m h1 h8
    have hstep : 1 ≤ (match op with
        | BackoffOp.apply => apply_backoff m
        | BackoffOp.reset => reset_backoff m) ∧
        (match op with
        | BackoffOp.apply => apply_backoff m
        | BackoffOp.reset => reset_backoff m) ≤ 8 := by
      cases op with
      | apply =>
        unfold apply_backoff
        constructor
        · exact le_min (by linarith) (by norm_num)
        · exact min_le_right _ _
      | reset =>
        unfold reset_backoff
        split_ifs with h
        · constructor
          · exact le_max_left _ _
          · exact max_le (by norm_num) (by linarith)
        · exact ⟨h1, h8⟩
    exact ih _ hstep.1 hstep.2

/-! ### Token-bucket invariant lemmas -/

/-- One `acquire` call keeps the token count in `[0, capacity]` and leaves
the configuration unchanged, provided the call time is not earlier than
the last refill and the cost is non-negative. -/
lemma TokenBucket.acquire_inv (b : TokenBucket) (now cost : ℚ)
    (ht0 : 0 ≤ b.tokens) (htc : b.tokens ≤ b.capacity) (hcap : 0 ≤ b.capacity)
    (hrate : 0 ≤ b.refill_rate) (hnow : b.last_refill ≤ now) (hcost : 0 ≤ cost) :
    0 ≤ (b.acquire now cost).1.tokens ∧
      (b.acquire now cost).1.tokens ≤ (b.acquire now cost).1.capacity ∧
      (b.acquire now cost).1.capacity = b.capacity ∧
      (b.acquire now cost).1.refill_rate = b.refill_rate ∧
      (b.acquire now cost).1.last_refill = now := by
  simp only [TokenBucket.acquire]
  have helapsed : 0 ≤ (now - b.last_refill) * b.refill_rate :=
    mul_nonneg (by linarith) hrate
  have hrefill0 : 0 ≤ min b.capacity (b.tokens + (now - b.last_refill) * b.refill_rate) :=
    le_min hcap (by linarith)
  have hrefillc : min b.capacity (b.tokens + (now - b.last_refill) * b.refill_rate)
      ≤ b.capacity := min_le_left _ _
  split_ifs with h
  · refine ⟨?_, ?_, rfl, rfl, rfl⟩ <;> dsimp only <;> linarith
  · exact ⟨hrefill0, hrefillc, rfl, rfl, rfl⟩

/-- Running a valid call sequence preserves the `[0, capacity]` invariant
and the bucket configuration. -/
lemma runAcquires_inv : ∀ (calls : List (ℚ × ℚ)) (b : TokenBucket),
    0 ≤ b.tokens → b.tokens ≤ b.capacity → 0 ≤ b.capacity →
    0 ≤ b.refill_rate → validCalls b.last_refill calls = true →
    0 ≤ (runAcquires b calls).tokens ∧
      (runAcquires b calls).tokens ≤ (runAcquires b calls).capacity ∧
      (runAcquires b calls).capacity = b.capacity
  | [], b, h0, hc, _, _, _ => ⟨h0, hc, rfl⟩
  | (now, cost) :: rest, b, h0, hc, hcap, hrate, hv => by
    simp only [validCalls, Bool.and_eq_true, decide_eq_true_eq] at hv
    obtain ⟨⟨hnow, hcost⟩, hvrest⟩ := hv
    have step := b.acquire_inv now cost h0 hc hcap hrate hnow hcost
    have ih := runAcquires_inv rest (b.acquire now cost).1 step.1
      (step.2.1) (step.2.2.1 ▸ hcap) (step.2.2.2.1 ▸ hrate)
      (by rw [step.2.2.2.2]; exact hvrest)
    exact ⟨ih.1, ih.2.1, ih.2.2.trans step.2.2.1⟩

/-- A prefix of a valid call sequence is valid. -/
lemma validCalls_of_append : ∀ (pre suf : List (ℚ × ℚ)) (t0 : ℚ),
    validCalls t0 (pre ++ suf) = true → validCalls t0 pre = true
  | [], _, _, _ => rfl
  | (now, cost) :: rest, suf, t0, h => by
    simp only [List.cons_append, validCalls, Bool.and_eq_true,
      decide_eq_true_eq] at h ⊢
    exact ⟨h.1, validCalls_of_append rest suf now h.2⟩

/-- C5: for every bucket with positive capacity and refill rate and every
finite valid sequence of `acquire` calls (non-negative costs, non-
decreasing times), the stored token count lies in `[0, capacity]` after
every call — refill is lazy and capped at `capacity`, and tokens are only
deducted when at least the requested amount is available. -/
theorem C5_token_bucket_invariant (capacity refill_rate t0 : ℚ)
    (calls : List (ℚ × ℚ)) (hcap : 0 < capacity) (hrate : 0 < refill_rate)
    (hv : validCalls t0 calls = true) :
    ∀ pre suf : List (ℚ × ℚ), calls = pre ++ suf →
      0 ≤ (runAcquires (TokenBucket.init capacity refill_rate t0) pre).tokens ∧
        (runAcquires (TokenBucket.init capacity refill_rate t0) pre).tokens
          ≤ capacity := by
  intro pre suf hsplit
  have hvpre : validCalls t0 pre = true :=
    validCalls_of_append pre suf t0 (hsplit ▸ hv)
  have h := runAcquires_inv pre (TokenBucket.init capacity refill_rate t0)
    hcap.le le_rfl hcap.le hrate.le hvpre
  have hcapeq : (runAcquires (TokenBucket.init capacity refill_rate t0) pre).capacity
      = capacity := h.2.2
  have h21 := h.2.1
  rw [hcapeq] at h21
  exact ⟨h.1, h21⟩

/-- C5 witness: capacity 5, refill rate 10, two calls; after the first
call (cost 2 at time 0) the bucket holds 3 tokens, inside `[0, 5]`. -/
theorem C5_token_bucket_invariant_witness :
    (0:ℚ) < 5 ∧ (0:ℚ) < 10 ∧
      validCalls 0 [((0:ℚ), (2:ℚ)), ((1:ℚ), (100:ℚ))] = true ∧
      (0 ≤ (runAcquires (TokenBucket.init 5 10 0) [(0, 2)]).tokens ∧
        (runAcquires (TokenBucket.init 5 10 0) [(0, 2)]).tokens ≤ 5) :=
  ⟨by norm_num, by norm_num, by decide,
    C5_token_bucket_invariant 5 10 0 [(0, 2), (1, 100)] (by norm_num)
      (by norm_num) (by decide) [(0, 2)] [(1, 100)] rfl⟩

/-! ### Fail-fast lemma for the retry loop -/

/-- Inside the retry loop: if the next `k` attempts are transient and the
`(k+1)`-st raises the breaker-open error, with more than `k` iterations
remaining the loop returns `ServiceUnavailable` right at that attempt,
having slept exactly once per preceding transient attempt and never after
the breaker-open error. -/
lemma rrLoop_fail_fast (out : ℕ → Outcome) :
    ∀ (k remaining idx sleeps : ℕ), k < remaining →
    (∀ i, i < k → out (idx + i) = .transient) →
    out (idx + k) = .breakerOpen →
    rrLoop out remaining idx sleeps = (.svcUnavailable, idx + k + 1, sleeps + k)
  | 0, remaining + 1, idx, sleeps, _, _, hopen => by
    simp only [Nat.add_zero] at hopen
    simp [rrLoop, hopen]
  | k + 1, remaining + 1, idx, sleeps, hk, htrans, hopen => by
    have h0 : out idx = .transient := by
      have := htrans 0 (Nat.succ_pos k)
      simpa using this
    have hrem : ¬remaining = 0 := by omega
    have ih := rrLoop_fail_fast out k remaining (idx + 1) (sleeps + 1)
      (by omega)
      (fun i hi => by
        have := htrans (i + 1) (by omega)
        simpa [Nat.add_assoc, Nat.add_comm 1 i] using this)
      (by
        have : idx + (k + 1) = idx + 1 + k := by omega
        simpa [this] using hopen)
    simp only [rrLoop, h0, hrem, if_false]
    rw [ih]
    simp only [Prod.mk.injEq, true_and]
    omega

/-- C6: `resilient_request` never retries after the circuit breaker
reports open.  Whenever the first `k` attempts hit transient network
errors and the next attempt raises the breaker-open error (surfaced as
`ServiceUnavailableError`), the function re-raises it immediately: it
returns `svcUnavailable` having made exactly `k + 1` attempts (none after
the breaker-open error) and slept exactly `k` times (once per transient
retry, never after the breaker-open error), for every attempt budget
larger than `k`. -/
theorem C6_breaker_open_fails_fast (out : ℕ → Outcome) (budget k : ℕ)
    (hk : k < budget) (htrans : ∀ i, i < k → out i = .transient)
    (hopen : out k = .breakerOpen) :
    resilient_request out budget = (.svcUnavailable, k + 1, k) := by
  have h := rrLoop_fail_fast out k budget 0 0 hk
    (fun i hi => by simpa using htrans i hi) (by simpa using hopen)
  simpa using h

/-- C6 witness: two transient attempts then a breaker-open error, budget
3 — the request fails fast after exactly 3 attempts and 2 sleeps. -/
theorem C6_breaker_open_fails_fast_witness :
    (2 < 3 ∧
      (∀ i, i < 2 →
        (fun j => if j < 2 then Outcome.transient else Outcome.breakerOpen) i
          = Outcome.transient) ∧
      (fun j => if j < 2 then Outcome.transient else Outcome.breakerOpen) 2
        = Outcome.breakerOpen) ∧
    resilient_request
        (fun j => if j < 2 then Outcome.transient else Outcome.breakerOpen) 3
      = (.svcUnavailable, 3, 2) :=
  ⟨⟨by norm_num, by decide, by norm_num⟩,
    C6_breaker_open_fails_fast _ 3 2 (by norm_num) (by decide) (by norm_num)⟩

/-- C9: `close_position` requires the trade's current status to be OPEN:
for a missing trade or a trade whose status is not OPEN it returns a
structured failure and leaves the record unchanged; when the opposing
sell order fills, the updated record is CLOSED with gross P&L
`(exit − entry) × filled_contracts`, fees equal to the fee rate times the
gross P&L only when that is positive (0 otherwise), and
`pnl = gross − fees`. -/
theorem C9_close_position_requires_open (fee_rate : ℚ) (t : Trade)
    (res : OrderResult) :
    (close_position fee_rate none res = (⟨false, none⟩, none)) ∧
    (t.status ≠ .OPEN →
      close_position fee_rate (some t) res = (⟨false, none⟩, some t)) ∧
    (t.status = .OPEN → res.success = true → 0 < res.filled_count →
      ∃ u exit_price,
        (close_position fee_rate (some t) res).1 = ⟨true, some exit_price⟩ ∧
        (close_position fee_rate (some t) res).2 = some u ∧
        u.status = .CLOSED ∧
        u.exit_price = some exit_price ∧
        u.fees = some (if 0 < (exit_price - t.entry_price) * t.filled_contracts
          then (exit_price - t.entry_price) * t.filled_contracts * fee_rate
          else 0) ∧
        u.pnl = some ((exit_price - t.entry_price) * t.filled_contracts
          - (if 0 < (exit_price - t.entry_price) * t.filled_contracts
            then (exit_price - t.entry_price) * t.filled_contracts * fee_rate
            else 0))) := by
  refine ⟨rfl, ?_, ?_⟩
  · intro hne
    simp [close_position, hne]
  · intro hopen hsucc hfill
    simp only [close_position, hopen, ne_eq, not_true_eq_false, if_false,
      hsucc, true_and, hfill, if_true]
    refine ⟨_, _, rfl, rfl, rfl, rfl, rfl, ?_⟩
    split_ifs with h
    · rfl
    · simp

/-- C9 witness: an OPEN trade with entry 0.40 and 10 contracts sold at 55
cents closes with gross P&L 1.5, fees `1.5 × fee_rate`, status CLOSED;
and a CLOSED trade is rejected unchanged. -/
theorem C9_close_position_requires_open_witness :
    (close_position (7/100) none ⟨true, 10, some 55⟩ = (⟨false, none⟩, none)) ∧
    (close_position (7/100)
        (some ⟨.CLOSED, 2/5, 10, none, none, none⟩) ⟨true, 10, some 55⟩
      = (⟨false, none⟩, some ⟨.CLOSED, 2/5, 10, none, none, none⟩)) ∧
    (∃ u exit_price,
      (close_position (7/100)
          (some ⟨.OPEN, 2/5, 10, none, none, none⟩) ⟨true, 10, some 55⟩).1
        = ⟨true, some exit_price⟩ ∧
      (close_position (7/100)
          (some ⟨.OPEN, 2/5, 10, none, none, none⟩) ⟨true, 10, some 55⟩).2
        = some u ∧
      u.status = .CLOSED ∧
      u.exit_price = some exit_price ∧
      u.fees = some (if 0 < (exit_price - 2/5) * 10
        then (exit_price - 2/5) * 10 * (7/100) else 0) ∧
      u.pnl = some ((exit_price - 2/5) * 10
        - (if 0 < (exit_price - 2/5) * 10
          then (exit_price - 2/5) * 10 * (7/100) else 0))) :=
  ⟨(C9_close_position_requires_open (7/100)
      ⟨.CLOSED, 2/5, 10, none, none, none⟩ ⟨true, 10, some 55⟩).1,
    (C9_close_position_requires_open (7/100)
      ⟨.CLOSED, 2/5, 10, none, none, none⟩ ⟨true, 10, some 55⟩).2.1
      (by decide),
    (C9_close_position_requires_open (7/100)
      ⟨.OPEN, 2/5, 10, none, none, none⟩ ⟨true, 10, some 55⟩).2.2
      rfl rfl (by decide)⟩

/-- C4: the pricer handles its edge cases without raising: with
`time_to_expiry_hours ≤ 0` it returns the deterministic outcome (for the
CALL side `1.0` exactly when spot > strike, else `0.0`); with positive
expiry but `volatility ≤ 0` it returns the same deterministic outcome
instead of dividing by zero; and with positive expiry and volatility but
non-positive spot or strike it returns `0.5`. -/
theorem C4_pricer_edge_cases
    (current_price strike_price time_to_expiry_hours volatility : ℝ)
    (option_type : OptionType) :
    (time_to_expiry_hours ≤ 0 →
      calculate_binary_option_probability current_price strike_price
          time_to_expiry_hours volatility option_type
        = binary_outcome current_price strike_price option_type) ∧
    (0 < time_to_expiry_hours → volatility ≤ 0 →
      calculate_binary_option_probability current_price strike_price
          time_to_expiry_hours volatility option_type
        = binary_outcome current_price strike_price option_type) ∧
    (0 < time_to_expiry_hours → 0 < volatility →
      current_price ≤ 0 ∨ strike_price ≤ 0 →
      calculate_binary_option_probability current_price strike_price
          time_to_expiry_hours volatility option_type
        = 0.5) ∧
    (time_to_expiry_hours ≤ 0 →
      (calculate_binary_option_probability current_price strike_price
          time_to_expiry_hours volatility .CALL = 1
        ↔ current_price > strike_price)) := by
  refine ⟨?_, ?_, ?_, ?_⟩
  · intro h
    simp [calculate_binary_option_probability, h]
  · intro hT hvol
    simp only [calculate_binary_option_probability, not_le.mpr hT, if_false]
    rw [if_pos (Or.inl hvol)]
  · intro hT hvol hSK
    have hTpos : 0 < time_to_expiry_hours / (24 * 365) :=
      div_pos hT (by norm_num)
    simp only [calculate_binary_option_probability, not_le.mpr hT, if_false]
    rw [if_neg (by push_neg; exact ⟨hvol, hTpos⟩), if_pos hSK]
  · intro h
    simp only [calculate_binary_option_probability, h, if_true,
      binary_outcome]
    split_ifs with hgt
    · simp [hgt]
    · simp [hgt]

/-- C4 witness: the three edge branches at concrete inputs — expired
in-the-money CALL pays 1, zero volatility falls back deterministically,
and a negative spot yields 0.5. -/
theorem C4_pricer_edge_cases_witness :
    (calculate_binary_option_probability 2 1 (-1) 1 .CALL
      = binary_outcome 2 1 .CALL) ∧
    (calculate_binary_option_probability 2 1 5 (-1) .CALL
      = binary_outcome 2 1 .CALL) ∧
    (calculate_binary_option_probability (-2) 1 5 1 .CALL = 0.5) ∧
    (calculate_binary_option_probability 2 1 (-1) 1 .CALL = 1
      ↔ (2:ℝ) > 1) :=
  ⟨(C4_pricer_edge_cases 2 1 (-1) 1 .CALL).1 (by norm_num),
    (C4_pricer_edge_cases 2 1 5 (-1) .CALL).2.1 (by norm_num) (by norm_num),
    (C4_pricer_edge_cases (-2) 1 5 1 .CALL).2.2.1 (by norm_num) (by norm_num)
      (Or.inl (by norm_num)),
    (C4_pricer_edge_cases 2 1 (-1) 1 .CALL).2.2.2 (by norm_num)⟩

/-- C7 counterexample: the claim as stated is false — with two positive
candles and `window = 1` exactly one valid pair remains, the sample
variances divide by `n - 1 = 0`, and the Python code raises
`ZeroDivisionError` instead of returning a (non-negative) number; the
embedding returns `none` on that path. -/
theorem C7_counterexample :
    calculate_yang_zhang_volatility [⟨1, 1, 1, 1⟩, ⟨1, 1, 1, 1⟩] 1 = none := by
  simp [calculate_yang_zhang_volatility, yz_pairs, lastN, yz_valid_pair]

/-- C7 (amended): whenever `calculate_yang_zhang_volatility` completes
(at least two valid consecutive-candle observations, so the division by
`n − 1` is defined — with exactly one it raises `ZeroDivisionError`), the
value it returns is non-negative (a negative intermediate Yang-Zhang
variance is replaced by its absolute value before the square root), and it
returns exactly the default `0.50` whenever the input has fewer than
`window + 1` candles. -/
theorem C7_yang_zhang_nonneg (candles : List Candle) (window : ℕ) :
    (∀ v, calculate_yang_zhang_volatility candles window = some v → 0 ≤ v) ∧
    (candles.length < window + 1 →
      calculate_yang_zhang_volatility candles window = some 0.50) := by
  constructor
  · intro v hv
    simp only [calculate_yang_zhang_volatility] at hv
    split_ifs at hv
    · injection hv with hv; subst hv; norm_num
    · injection hv with hv; subst hv; norm_num
    · injection hv with hv; subst hv; positivity
    · injection hv with hv; subst hv; positivity
  · intro h
    simp [calculate_yang_zhang_volatility, h]

/-- C7 witness: the empty candle list with window 0 is short, returns the
default 0.50, and that value is non-negative. -/
theorem C7_yang_zhang_nonneg_witness :
    ([] : List Candle).length < 0 + 1 ∧
    calculate_yang_zhang_volatility [] 0 = some 0.50 ∧
    (0:ℝ) ≤ 0.50 :=
  ⟨by norm_num, (C7_yang_zhang_nonneg [] 0).2 (by norm_num),
    (C7_yang_zhang_nonneg [] 0).1 0.50
      ((C7_yang_zhang_nonneg [] 0).2 (by norm_num))⟩

/-! ### Close-to-close estimator: cast lemmas and claim C1 -/

/-- Casting a rational list into the reals commutes with the mean. -/
lemma rmean_map_cast (xs : List ℚ) :
    rmean (xs.map fun q : ℚ => (q : ℝ)) = ((qmean xs : ℚ) : ℝ) := by
  unfold rmean qmean
  rw [List.length_map, Rat.cast_div, Rat.cast_natCast]
  congr 1
  rw [Rat.cast_list_sum]

/-- Casting a rational list into the reals commutes with the ddof-1
sample variance. -/
lemma rsample_variance_map_cast (xs : List ℚ) :
    rsample_variance (xs.map fun q : ℚ => (q : ℝ))
      = ((sample_variance xs : ℚ) : ℝ) := by
  unfold rsample_variance sample_variance
  rw [rmean_map_cast, List.length_map, List.map_map]
  rw [show ((fun r => (r - ((qmean xs : ℚ) : ℝ)) ^ 2) ∘ fun q : ℚ => (q : ℝ))
        = fun q : ℚ => (((q - qmean xs) ^ 2 : ℚ) : ℝ) by
      funext q; simp only [Function.comp_apply]; push_cast; ring]
  rw [show (fun q : ℚ => (((q - qmean xs) ^ 2 : ℚ) : ℝ))
        = (fun q : ℚ => (q : ℝ)) ∘ fun q : ℚ => (q - qmean xs) ^ 2 from rfl]
  rw [← List.map_map, show (fun q : ℚ => (q : ℝ)) = Rat.cast from rfl,
    ← Rat.cast_list_sum]
  push_cast
  ring

/-- Casting the close prices into the reals commutes with forming the
simple-returns list. -/
lemma returns_map_cast (closes : List ℚ) :
    ((closes.map fun q : ℚ => (q : ℝ)).zip
          (closes.map fun q : ℚ => (q : ℝ)).tail).map
        (fun p : ℝ × ℝ => p.2 / p.1 - 1)
      = ((closes.zip closes.tail).map fun p : ℚ × ℚ => p.2 / p.1 - 1).map
          fun q : ℚ => (q : ℝ) := by
  rw [← List.map_tail, List.zip_map, List.map_map, List.map_map]
  congr 1
  funext p
  simp only [Function.comp_apply, Prod.map_fst, Prod.map_snd]
  push_cast
  ring

/-- The concrete candle list of the C1 counterexample, with closes
`1, 2, 8`: the simple returns are `[1, 3]` while the log returns are
`[log 2, log 4]`. -/
def cexCandles : List Candle := [⟨1, 1, 1, 1⟩, ⟨2, 2, 2, 2⟩, ⟨8, 8, 8, 8⟩]

/-- The code's value on the counterexample: the ddof-1 standard deviation
of the simple returns `[1, 3]` is `√2`. -/
lemma realized_vol_cex_eval :
    calculate_realized_volatility cexCandles 2
      = Real.sqrt 2 * Real.sqrt (24 * 365) := by
  simp only [calculate_realized_volatility, cexCandles]
  norm_num [lastN, sample_variance, qmean, List.zip]

/-- The claimed (log-return) value on the counterexample: the ddof-1
standard deviation of `[log 2, log 4]` is `√((log 2)² / 2)`. -/
lemma spec_log_vol_cex_eval :
    spec_close_to_close_log_vol cexCandles 2
      = Real.sqrt ((Real.log 2) ^ 2 / 2) * Real.sqrt (24 * 365) := by
  have h4 : Real.log 4 = 2 * Real.log 2 := by
    rw [show (4:ℝ) = 2 ^ 2 by norm_num, Real.log_pow]
    push_cast
    ring
  have hvar : rsample_variance [Real.log 2, Real.log 4]
      = (Real.log 2) ^ 2 / 2 := by
    simp only [rsample_variance, rmean, List.map_cons, List.map_nil,
      List.sum_cons, List.sum_nil, List.length_cons, List.length_nil, h4]
    push_cast
    ring
  simp only [spec_close_to_close_log_vol, cexCandles]
  norm_num [lastN, List.zip]
  rw [hvar]
  exact Real.sqrt_div (sq_nonneg _) 2

/-- C1 counterexample: the claim as stated is false — on candles with
closes `1, 2, 8` and window 2 the code (simple returns `[1, 3]`, value
`√2·√8760`) differs from the claimed std-dev of the log returns
`[log 2, log 4]` (value `√((log 2)²/2)·√8760`), since `log 2 < 1`. -/
theorem C1_counterexample :
    calculate_realized_volatility cexCandles 2
      ≠ spec_close_to_close_log_vol cexCandles 2 := by
  rw [realized_vol_cex_eval, spec_log_vol_cex_eval]
  have hL : Real.log 2 < 1 := lt_trans Real.log_two_lt_d9 (by norm_num)
  have hL0 : 0 ≤ Real.log 2 := Real.log_nonneg (by norm_num)
  have hlt : Real.sqrt ((Real.log 2) ^ 2 / 2) < Real.sqrt 2 := by
    apply Real.sqrt_lt_sqrt (by positivity)
    nlinarith
  have h8760 : 0 < Real.sqrt (24 * 365) := Real.sqrt_pos.mpr (by norm_num)
  exact ne_of_gt (mul_lt_mul_of_pos_right hlt h8760)

/-- C1 (amended): for every candle list with at least `window + 1` entries
(window at least 2, so the ddof-1 standard deviation is defined),
`calculate_realized_volatility` equals the standard deviation of the
*simple* returns `close_t / close_{t-1} − 1` over the last `window + 1`
closes (ddof = 1), annualized by `√(24·365)`. -/
theorem C1_close_to_close_simple_returns (candles : List Candle)
    (window : ℕ) (hw : 2 ≤ window) (hlen : window + 1 ≤ candles.length) :
    calculate_realized_volatility candles window
      = spec_close_to_close_simple_vol candles window := by
  have hnot : ¬candles.length < window + 1 := not_lt.mpr hlen
  simp only [calculate_realized_volatility, spec_close_to_close_simple_vol,
    hnot, if_false]
  rw [show (lastN candles (window + 1)).map (fun c => ((c.close : ℚ) : ℝ))
        = ((lastN candles (window + 1)).map Candle.close).map
            (fun q : ℚ => (q : ℝ)) by rw [List.map_map]; rfl]
  rw [returns_map_cast, rsample_variance_map_cast]

/-- C1 witness: the amended theorem applied to the three-candle list with
closes `1, 2, 8` and window 2. -/
theorem C1_close_to_close_simple_returns_witness :
    2 ≤ 2 ∧ 2 + 1 ≤ cexCandles.length ∧
    calculate_realized_volatility cexCandles 2
      = spec_close_to_close_simple_vol cexCandles 2 :=
  ⟨le_rfl, by norm_num [cexCandles],
    C1_close_to_close_simple_returns cexCandles 2 le_rfl
      (by norm_num [cexCandles])⟩

end Basilisk
